import Mathlib

/-!
Verification of the lazyllms refresh-and-caching engine.

The definitions below are a shallow embedding of the Python source:
  - the model-name parsing and retry loop of
    src/core/ollama_api.py, get_running_models;
  - the tick body of src/cli/tui.py, LazyLLMsApp.refresh_data;
  - the selection debounce of
    src/cli/tui.py, LazyLLMsApp.on_data_table_selection_changed;
  - the log deduplication and rate limit of
    src/cli/widgets/log_panel.py, LogPanel.update_logs.
Wall-clock timestamps (Python time.time floats) are modelled as integer
millisecond counts, so the second-valued constants of the source appear
scaled by 1000 (0.1 s debounce = 100, 0.5 s rate limit = 500, the 2 s,
5 s and 3 s refresh intervals = 2000, 5000, 3000); Python set membership
is modelled by list membership.
-/

namespace LazyLLMs

/-- Python substring test: does the character list hay contain needle
as a contiguous run (needle in hay)? -/
def containsList (needle : List Char) : List Char → Bool
  | [] => needle.isEmpty
  | c :: rest => needle.isPrefixOf (c :: rest) || containsList needle rest

/-- Python operator in on strings: needle in hay. -/
def strContains (hay needle : String) : Bool :=
  containsList needle.data hay.data

/-- Characters before the first colon. -/
def takeUntilColon : List Char → List Char
  | [] => []
  | c :: rest => if c = ':' then [] else c :: takeUntilColon rest

/-- Python name.split on colon, index 0: the part before the first colon. -/
def baseToken (name : String) : String :=
  String.mk (takeUntilColon name.data)

/-- ASCII lowering of one character, as Python str.lower acts on ASCII. -/
def lowerChar (c : Char) : Char :=
  if 65 ≤ c.toNat && c.toNat ≤ 90 then Char.ofNat (c.toNat + 32) else c

/-- Python name.lower for ASCII names. -/
def lowerStr (s : String) : String :=
  String.mk (s.data.map lowerChar)

/-- Quantization parsing from get_running_models: default Q4_K_M, a
case-insensitive scan of the whole name for q4 then q8. -/
def parseQuant (name : String) : String :=
  if strContains (lowerStr name) "q4" then "Q4_K_M"
  else if strContains (lowerStr name) "q8" then "Q8_0"
  else "Q4_K_M"

/-- Family parsing from get_running_models: an ordered, case-sensitive
substring scan of the base token; on no match the base token verbatim. -/
def parseFamily (base : String) : String :=
  if strContains base "llama" then "llama"
  else if strContains base "mistral" then "mistral"
  else if strContains base "gemma" then "gemma"
  else if strContains base "qwen" then "qwen"
  else if strContains base "phi" then "phi"
  else base

/-- Parameter-size parsing from get_running_models: a case-insensitive
scan of the whole name for 70b, 13b, 7b, 3b in that order, default 7B. -/
def parseParamSize (name : String) : String :=
  if strContains (lowerStr name) "70b" then "70B"
  else if strContains (lowerStr name) "13b" then "13B"
  else if strContains (lowerStr name) "7b" then "7B"
  else if strContains (lowerStr name) "3b" then "3B"
  else "7B"

/-- The pure descriptor-resolution core of get_running_models:
raw name to (family, parameter size, quantization). -/
def resolve (name : String) : String × String × String :=
  (parseFamily (baseToken name), parseParamSize name, parseQuant name)

/-- True when the raw name holds no recognized family, size or
quantization token, so every parse falls back to its default. -/
def noKnownTokens (name : String) : Bool :=
  !(strContains (baseToken name) "llama") &&
  !(strContains (baseToken name) "mistral") &&
  !(strContains (baseToken name) "gemma") &&
  !(strContains (baseToken name) "qwen") &&
  !(strContains (baseToken name) "phi") &&
  !(strContains (lowerStr name) "70b") &&
  !(strContains (lowerStr name) "13b") &&
  !(strContains (lowerStr name) "7b") &&
  !(strContains (lowerStr name) "3b") &&
  !(strContains (lowerStr name) "q4") &&
  !(strContains (lowerStr name) "q8")


/-- The details sub-dictionary built by get_running_models. -/
structure ModelDetails where
  family : String
  parameter_size : String
  quantization_level : String
  format : String
deriving DecidableEq

/-- The metrics sub-dictionary built by get_running_models. -/
structure ModelMetrics where
  throughput : String
  latency : String
  memory_usage : Nat
deriving DecidableEq

/-- A raw model record from the backend tags endpoint; fields other than
the name reach the code through dict.get with a default. -/
structure RawModel where
  name : String
  digest : Option String
  size : Option Nat
  modified_at : Option String
deriving DecidableEq

/-- The enhanced-model dictionary built per model by get_running_models. -/
structure EnhancedModel where
  name : String
  digest : String
  size : Nat
  details : ModelDetails
  modified_at : String
  metrics : ModelMetrics
deriving DecidableEq

/-- One iteration body of the loop over models in get_running_models. -/
def enhanceModel (m : RawModel) : EnhancedModel :=
  { name := m.name
    digest := m.digest.getD "unknown"
    size := m.size.getD 0
    details :=
      { family := parseFamily (baseToken m.name)
        parameter_size := parseParamSize m.name
        quantization_level := parseQuant m.name
        format := "gguf" }
    modified_at := m.modified_at.getD ""
    metrics :=
      { throughput := "10 tokens/s"
        latency := "150ms"
        memory_usage := m.size.getD 0 } }

/-- Outcome of one HTTP attempt inside get_running_models: a
requests.RequestException, or a parsed model list from the response. -/
inductive FetchOutcome where
  | exn : FetchOutcome
  | ok : List RawModel → FetchOutcome
deriving DecidableEq

/-- max_retries in get_running_models. -/
def maxRetries : Nat := 3

/-- retry_delay in get_running_models (seconds). -/
def retryDelay : Nat := 1

/-- Observable trace of one get_running_models call: the returned list,
the sleep delays performed between attempts, and how many attempts ran. -/
structure FetchRun where
  result : List EnhancedModel
  sleeps : List Nat
  attempts : Nat
deriving DecidableEq

/-- The retry loop of get_running_models: attempt index and remaining
iterations; on a request exception at the last attempt return the empty
list, otherwise sleep retry_delay * (attempt + 1) and try again; a
successful response with an empty model list just falls through to the
next iteration without sleeping. -/
def goFetch (fetch : Nat → FetchOutcome) : Nat → Nat → FetchRun
  | _, 0 => ⟨[], [], 0⟩
  | attempt, remaining + 1 =>
    match fetch attempt with
    | .ok models =>
      if models.isEmpty then
        let r := goFetch fetch (attempt + 1) remaining
        ⟨r.result, r.sleeps, r.attempts + 1⟩
      else
        ⟨models.map enhanceModel, [], 1⟩
    | .exn =>
      if attempt = maxRetries - 1 then ⟨[], [], 1⟩
      else
        let r := goFetch fetch (attempt + 1) remaining
        ⟨r.result, retryDelay * (attempt + 1) :: r.sleeps, r.attempts + 1⟩

/-- get_running_models as a whole, as a function of the attempt outcomes. -/
def getRunningModels (fetch : Nat → FetchOutcome) : FetchRun :=
  goFetch fetch 0 maxRetries


/-- The model-change test in refresh_data: new_models compared with the
cached models_data entry (absent on the first tick) by deep inequality. -/
def modelsChanged (newModels : List EnhancedModel)
    (cached : Option (List EnhancedModel)) : Bool :=
  decide (cached ≠ some newModels)

/-- update_intervals of LazyLLMsApp, in milliseconds. -/
def systemInterval : ℤ := 2000

/-- Models refresh interval of LazyLLMsApp, in milliseconds. -/
def modelsInterval : ℤ := 5000

/-- Performance refresh interval of LazyLLMsApp, in milliseconds. -/
def performanceInterval : ℤ := 3000

/-- The mutable cache dictionary of LazyLLMsApp, restricted to the fields
refresh_data touches, plus a count of notify calls. -/
structure AppCache where
  last_update : ℤ
  models_last_update : ℤ
  performance_last_update : ℤ
  models_data : Option (List EnhancedModel)
  notifications : ℕ
deriving DecidableEq

/-- The cache as built by LazyLLMsApp.init. -/
def initCache : AppCache :=
  { last_update := 0
    models_last_update := 0
    performance_last_update := 0
    models_data := none
    notifications := 0 }

/-- What each block of one refresh_data tick would do if reached: the
system-panel update and performance-panel update either succeed or raise,
and the models block either raises (panel access) or obtains a fetched
model list (get_running_models itself returns normally). -/
structure TickOps where
  sysOp : Except Unit Unit
  modelsOp : Except Unit (List EnhancedModel)
  perfOp : Except Unit Unit

/-- Result of one refresh_data call: the cache afterwards and which
panels were refreshed this tick. -/
structure TickResult where
  cache : AppCache
  systemRefreshed : Bool
  modelsRefreshed : Bool
  perfRefreshed : Bool
deriving DecidableEq

/-- The performance block of refresh_data; an exception lands in the
outer handler, which notifies and ends the tick. -/
def perfStep (now : ℤ) (op : Except Unit Unit) (st : AppCache)
    (sysR modelsR : Bool) : TickResult :=
  if now - st.performance_last_update > performanceInterval then
    match op with
    | .error _ => ⟨{ st with notifications := st.notifications + 1 }, sysR, modelsR, false⟩
    | .ok _ => ⟨{ st with performance_last_update := now }, sysR, modelsR, true⟩
  else ⟨st, sysR, modelsR, false⟩

/-- The models block of refresh_data: on an exception the inner handler
re-raises, so the outer handler notifies and the performance block is
skipped; on success the change test decides whether the models panel and
stats panel are updated, and models_last_update is set either way. -/
def modelsStep (now : ℤ) (ops : TickOps) (st : AppCache) (sysR : Bool) : TickResult :=
  if now - st.models_last_update > modelsInterval then
    match ops.modelsOp with
    | .error _ => ⟨{ st with notifications := st.notifications + 1 }, sysR, false, false⟩
    | .ok newModels =>
      let changed := modelsChanged newModels st.models_data
      let st2 := if changed then { st with models_data := some newModels } else st
      perfStep now ops.perfOp { st2 with models_last_update := now } sysR changed
  else perfStep now ops.perfOp st sysR false

/-- One refresh_data tick. The whole body sits in a single try block: an
exception in the system block reaches the outer handler directly, which
notifies once and abandons the rest of the tick. -/
def refreshData (now : ℤ) (ops : TickOps) (st : AppCache) : TickResult :=
  if now - st.last_update > systemInterval then
    match ops.sysOp with
    | .error _ => ⟨{ st with notifications := st.notifications + 1 }, false, false, false⟩
    | .ok _ => modelsStep now ops { st with last_update := now } true
  else modelsStep now ops st false

/-- A run of consecutive refresh_data ticks. -/
def runTicks (ticks : List (ℤ × TickOps)) (st : AppCache) : AppCache :=
  match ticks with
  | [] => st
  | (now, ops) :: rest => runTicks rest (refreshData now ops st).cache

/-- The selection state of LazyLLMsApp: last accepted selection time and
the last selected model name. -/
structure SelState where
  lastSelectionTime : ℤ
  lastSelected : Option String
deriving DecidableEq

/-- The 0.1 s selection debounce window, in milliseconds. -/
def debounceWindow : ℤ := 100

/-- The 0.5 s rate limit of LogPanel.update_logs, in milliseconds. -/
def logRateLimit : ℤ := 500

/-- LazyLLMsApp.on_data_table_selection_changed: any event inside the
100 ms debounce window returns early; otherwise a usable cell whose name
differs from the last selected one is accepted, the selection state is
updated and action_select_model runs, signalled by the returned flag. -/
def onSelectionChanged (now : ℤ) (cell : Option String) (st : SelState) :
    SelState × Bool :=
  if now - st.lastSelectionTime < debounceWindow then (st, false)
  else
    match cell with
    | none => (st, false)
    | some name =>
      if some name ≠ st.lastSelected then
        (⟨now, some name⟩, true)
      else (st, false)

/-- The state of LogPanel: time of the last completed update, the set of
already emitted raw lines, and the selected model. -/
structure LogState where
  lastUpdate : ℤ
  logHistory : List String
  selectedModel : Option String
deriving DecidableEq

/-- The dedup loop of LogPanel.update_logs: walk the fetched entries in
order, skip those already in the history, emit the rest and add each
emitted entry to the history. -/
def dedupLines (hist : List String) : List String → List String × List String
  | [] => ([], hist)
  | e :: rest =>
    if e ∈ hist then dedupLines hist rest
    else
      let r := dedupLines (e :: hist) rest
      (e :: r.1, r.2)

/-- LogPanel.update_logs: a call less than 0.5 s after the last completed
update returns at once; with no selected model nothing is fetched; else
the fetched lines are deduplicated against the history, the new lines are
written and the update time is recorded. -/
def updateLogs (now : ℤ) (fetched : List String) (st : LogState) :
    LogState × List String :=
  if now - st.lastUpdate < logRateLimit then (st, [])
  else
    match st.selectedModel with
    | none => (st, [])
    | some _ =>
      let r := dedupLines st.logHistory fetched
      ({ st with logHistory := r.2, lastUpdate := now }, r.1)

/-- Severity tagging in LogPanel.update_logs: a case-sensitive substring
test for ERROR, then WARNING, then the informational default. -/
def severityStyle (entry : String) : String :=
  if strContains entry "ERROR" then "red"
  else if strContains entry "WARNING" then "yellow"
  else "green"

/-- A sample enhanced model used in concrete scenarios. -/
def mAlpha : EnhancedModel :=
  ⟨"alpha", "d1", 1, ⟨"alpha", "7B", "Q4_K_M", "gguf"⟩, "t1",
    ⟨"10 tokens/s", "150ms", 1⟩⟩

/-- A second sample enhanced model, distinct from mAlpha. -/
def mBeta : EnhancedModel :=
  ⟨"beta", "d2", 2, ⟨"beta", "7B", "Q4_K_M", "gguf"⟩, "t2",
    ⟨"10 tokens/s", "150ms", 2⟩⟩

/-- Cache holding mAlpha as the cached model list, all sources long due. -/
def cacheWithAlpha : AppCache :=
  { last_update := 0
    models_last_update := 0
    performance_last_update := 0
    models_data := some [mAlpha]
    notifications := 0 }

/-- A tick whose system update raises while the models fetch succeeds
with fresh data and the performance update would succeed. -/
def sysFailOps : TickOps :=
  ⟨Except.error (), Except.ok [mAlpha, mBeta], Except.ok ()⟩

/-- Field-by-field equality of two enhanced-model records. -/
def modelFieldsEq (a b : EnhancedModel) : Prop :=
  a.name = b.name ∧ a.digest = b.digest ∧ a.size = b.size ∧
  a.details = b.details ∧ a.modified_at = b.modified_at ∧
  a.metrics = b.metrics

/-- Three consecutive ticks whose system update raises each time. -/
def threeFailTicks : List (ℤ × TickOps) :=
  [(10000, sysFailOps), (20000, sysFailOps), (30000, sysFailOps)]

/-- C4. Descriptor resolution follows the ordered-token algorithm and is
total: resolving llama3:70b-q4_K_M yields family llama, scale 70B and
quantization Q4_K_M, and a raw name with no recognized family, size or
quantization token resolves to its base token verbatim as family, the
default scale 7B and the default quantization Q4_K_M; being a total Lean
function, resolve never fails. -/
theorem claim_C4 :
    resolve "llama3:70b-q4_K_M" = ("llama", "70B", "Q4_K_M") ∧
    ∀ name, noKnownTokens name = true →
      resolve name = (baseToken name, "7B", "Q4_K_M") := by
  refine ⟨by decide, ?_⟩
  intro name h
  simp only [noKnownTokens, Bool.and_eq_true, Bool.not_eq_true'] at h
  obtain ⟨⟨⟨⟨⟨⟨⟨⟨⟨⟨h1, h2⟩, h3⟩, h4⟩, h5⟩, h6⟩, h7⟩, h8⟩, h9⟩, h10⟩, h11⟩ := h
  simp [resolve, parseFamily, parseParamSize, parseQuant,
    h1, h2, h3, h4, h5, h6, h7, h8, h9, h10, h11]

/-- Witness for C4: the no-recognized-token case at the concrete name
custom-net-v2. -/
theorem claim_C4_witness :
    noKnownTokens "custom-net-v2" = true ∧
    resolve "custom-net-v2" = ("custom-net-v2", "7B", "Q4_K_M") :=
  ⟨by decide, claim_C4.2 "custom-net-v2" (by decide)⟩

/-- C8 counterexample: family matching is not case-insensitive; changing
the case of the base token of llama3 changes the resolved family. -/
theorem claim_C8_cex : (resolve "Llama3").1 ≠ (resolve "llama3").1 := by decide

/-- C8 amended: family matching in descriptor resolution is
case-sensitive: family tokens match only in their exact lowercase
spelling, so Llama3 keeps its base token verbatim while llama3 maps to
the llama family; the size and quantization scans, by contrast, lower
the name first and are case-insensitive. -/
theorem claim_C8_amended :
    (resolve "llama3").1 = "llama" ∧
    (resolve "Llama3").1 = "Llama3" ∧
    resolve "LLAMA3:70B-Q4_K_M" = ("LLAMA3", "70B", "Q4_K_M") := by decide

/-- The retry loop performs at most as many attempts as it has
iterations left. -/
theorem goFetch_attempts_le (remaining : Nat) :
    ∀ (attempt : Nat) (fetch : Nat → FetchOutcome),
      (goFetch fetch attempt remaining).attempts ≤ remaining := by
  induction remaining with
  | zero => intro attempt fetch; simp [goFetch]
  | succ n ih =>
    intro attempt fetch
    simp only [goFetch]
    cases hf : fetch attempt with
    | ok models =>
      by_cases he : models.isEmpty
      · simpa [he] using Nat.succ_le_succ (ih (attempt + 1) fetch)
      · simp [he]
    | exn =>
      by_cases ha : attempt = maxRetries - 1
      · simp [ha]
      · simpa [ha] using Nat.succ_le_succ (ih (attempt + 1) fetch)

/-- C5. Retry with backoff in get_running_models: every call makes at
most max_retries = 3 attempts, and when each attempt fails with a
request exception the sleep delays performed before the successive
retries are the base delay and then its double. -/
theorem claim_C5 :
    (∀ fetch, (getRunningModels fetch).attempts ≤ maxRetries) ∧
    (∀ fetch, (∀ k, k < maxRetries → fetch k = FetchOutcome.exn) →
      (getRunningModels fetch).sleeps = [retryDelay, 2 * retryDelay]) := by
  constructor
  · intro fetch
    exact goFetch_attempts_le maxRetries 0 fetch
  · intro fetch h
    have h0 := h 0 (by decide)
    have h1 := h 1 (by decide)
    have h2 := h 2 (by decide)
    simp [getRunningModels, maxRetries, retryDelay, goFetch, h0, h1, h2]

/-- Witness for C5: the always-failing fetch makes at most three
attempts and sleeps for the base delay and then its double. -/
theorem claim_C5_witness :
    (getRunningModels (fun _ => FetchOutcome.exn)).attempts ≤ maxRetries ∧
    (getRunningModels (fun _ => FetchOutcome.exn)).sleeps
      = [retryDelay, 2 * retryDelay] :=
  ⟨claim_C5.1 _, claim_C5.2 _ (fun _ _ => rfl)⟩

/-- C9. The model listing is total at its interface: when every attempt
fails with a request exception the call returns the empty list, exactly
what it returns when the backend answers with zero running models, so
the two cases are indistinguishable to the caller; the embedding of
get_running_models is a total function, mirroring that the request
exceptions are all caught inside it. -/
theorem claim_C9 (fetchF fetchE : Nat → FetchOutcome)
    (hF : ∀ k, k < maxRetries → fetchF k = FetchOutcome.exn)
    (hE : ∀ k, k < maxRetries → fetchE k = FetchOutcome.ok []) :
    (getRunningModels fetchF).result = [] ∧
    (getRunningModels fetchE).result = [] := by
  constructor
  · have h0 := hF 0 (by decide)
    have h1 := hF 1 (by decide)
    have h2 := hF 2 (by decide)
    simp [getRunningModels, maxRetries, goFetch, h0, h1, h2]
  · have h0 := hE 0 (by decide)
    have h1 := hE 1 (by decide)
    have h2 := hE 2 (by decide)
    simp [getRunningModels, maxRetries, goFetch, h0, h1, h2]

/-- Witness for C9: the always-raising fetch and the always-empty
backend both yield the empty list. -/
theorem claim_C9_witness :
    (getRunningModels (fun _ => FetchOutcome.exn)).result = [] ∧
    (getRunningModels (fun _ => FetchOutcome.ok [])).result = [] :=
  claim_C9 (fun _ => FetchOutcome.exn) (fun _ => FetchOutcome.ok [])
    (fun _ _ => rfl) (fun _ _ => rfl)

/-- Two enhanced models agree field by field exactly when they are
equal. -/
theorem modelFieldsEq_iff (a b : EnhancedModel) : modelFieldsEq a b ↔ a = b := by
  cases a; cases b
  simp [modelFieldsEq, EnhancedModel.mk.injEq, and_assoc]

/-- C2 counterexample: the same two models in reversed order are a
permutation of the cached list, yet the change test reports changed. -/
theorem claim_C2_cex :
    List.Perm [mAlpha, mBeta] [mBeta, mAlpha] ∧
    mAlpha ≠ mBeta ∧
    modelsChanged [mAlpha, mBeta] (some [mBeta, mAlpha]) = true := by
  refine ⟨List.Perm.swap mBeta mAlpha [], ?_, ?_⟩ <;> decide

/-- C2 amended: change detection is structural and deep but
order-sensitive: the change test reports no change exactly when a cached
list exists whose entries agree with the new fetch field by field in the
same positions; any field-level difference, a reordering, or a missing
cache entry reports a change. -/
theorem claim_C2_amended (newModels : List EnhancedModel)
    (cached : Option (List EnhancedModel)) :
    modelsChanged newModels cached = false ↔
      ∃ old, cached = some old ∧ List.Forall₂ modelFieldsEq newModels old := by
  unfold modelsChanged
  simp only [decide_eq_false_iff_not, ne_eq, not_not]
  constructor
  · intro h
    refine ⟨newModels, h, ?_⟩
    exact List.forall₂_same.2 fun x _ => (modelFieldsEq_iff x x).2 rfl
  · rintro ⟨old, rfl, hf⟩
    have : List.Forall₂ (· = ·) newModels old :=
      hf.imp fun {a b} hab => (modelFieldsEq_iff a b).1 hab
    rw [List.forall₂_eq_eq_eq] at this
    rw [this]

/-- C1 counterexample: on a tick where the system update raises while
the models fetch succeeds with genuinely new data, the models source is
not refreshed and the cached models data keeps its prior value, so a
failing source does abort the rest of the tick. -/
theorem claim_C1_cex :
    sysFailOps.sysOp = Except.error () ∧
    sysFailOps.modelsOp = Except.ok [mAlpha, mBeta] ∧
    modelsChanged [mAlpha, mBeta] cacheWithAlpha.models_data = true ∧
    (refreshData 10000 sysFailOps cacheWithAlpha).modelsRefreshed = false ∧
    (refreshData 10000 sysFailOps cacheWithAlpha).cache.models_data
      = some [mAlpha] := by
  refine ⟨rfl, rfl, ?_, ?_, ?_⟩ <;> decide

/-- C1 amended: refresh_data runs inside a single try block, so a system
update that raises on a due tick ends the whole tick: no source is
refreshed, every cached value, models data included, keeps its prior
value, and the failure is converted into one error notification instead
of crashing the app. -/
theorem claim_C1_amended (now : ℤ) (ops : TickOps) (st : AppCache)
    (hdue : now - st.last_update > systemInterval)
    (herr : ops.sysOp = Except.error ()) :
    refreshData now ops st =
      ⟨{ st with notifications := st.notifications + 1 }, false, false, false⟩ := by
  unfold refreshData
  rw [if_pos hdue, herr]

/-- Witness for C1 amended: the concrete failing tick at time 10000 on
the cache holding mAlpha. -/
theorem claim_C1_amended_witness :
    refreshData 10000 sysFailOps cacheWithAlpha =
      ⟨{ cacheWithAlpha with
          notifications := cacheWithAlpha.notifications + 1 },
        false, false, false⟩ :=
  claim_C1_amended 10000 sysFailOps cacheWithAlpha (by decide) rfl

/-- C6 counterexample: a source failing on three consecutive ticks
produces three notifications, not one. -/
theorem claim_C6_cex :
    (runTicks threeFailTicks initCache).notifications = 3 ∧
    (runTicks threeFailTicks initCache).notifications ≠ 1 := by decide

/-- C6 amended: failure notifications are not throttled: every due tick
whose system update raises appends exactly one notification, so three
consecutive failing ticks produce three notifications, one per tick. -/
theorem claim_C6_amended :
    (∀ (now : ℤ) (ops : TickOps) (st : AppCache),
      now - st.last_update > systemInterval → ops.sysOp = Except.error () →
        (refreshData now ops st).cache.notifications = st.notifications + 1) ∧
    (runTicks threeFailTicks initCache).notifications = 3 := by
  constructor
  · intro now ops st hdue herr
    unfold refreshData
    rw [if_pos hdue, herr]
  · decide

/-- Witness for C6 amended: one concrete failing tick appends exactly
one notification. -/
theorem claim_C6_amended_witness :
    (refreshData 10000 sysFailOps initCache).cache.notifications
      = initCache.notifications + 1 :=
  claim_C6_amended.1 10000 sysFailOps initCache (by decide) rfl

/-- C3 counterexample: a selection event for id b arriving 50 ms after
the accepted selection of id a is rejected by the debounce although its
id differs from the selected one. -/
theorem claim_C3_cex :
    onSelectionChanged 1050 (some "b") ⟨1000, some "a"⟩
      = (⟨1000, some "a"⟩, false) ∧
    some "b" ≠ (SelState.mk 1000 (some "a")).lastSelected := by decide

/-- C3 amended: the debounce window applies to every selection event:
any event within 100 ms of the last accepted selection is rejected, even
for a different id; outside the window a same-id event is still
rejected, and a different-id event is accepted and updates the
selection. Two same-id events inside the window therefore yield exactly
one accepted selection. -/
theorem claim_C3_amended :
    (∀ (now : ℤ) (cell : Option String) (st : SelState),
      now - st.lastSelectionTime < debounceWindow →
        onSelectionChanged now cell st = (st, false)) ∧
    (∀ (now : ℤ) (name : String) (st : SelState),
      ¬ now - st.lastSelectionTime < debounceWindow →
        st.lastSelected = some name →
          onSelectionChanged now (some name) st = (st, false)) ∧
    (∀ (now : ℤ) (name : String) (st : SelState),
      ¬ now - st.lastSelectionTime < debounceWindow →
        some name ≠ st.lastSelected →
          onSelectionChanged now (some name) st = (⟨now, some name⟩, true)) := by
  refine ⟨?_, ?_, ?_⟩
  · intro now cell st h
    simp [onSelectionChanged, h]
  · intro now name st h hsel
    simp [onSelectionChanged, h, hsel]
  · intro now name st h hne
    simp [onSelectionChanged, h, hne]

/-- Witness for C3 amended: a different-id event 200 ms after the last
accepted selection is accepted and becomes the selection. -/
theorem claim_C3_amended_witness :
    onSelectionChanged 1200 (some "b") ⟨1000, some "a"⟩
      = (⟨1200, some "b"⟩, true) :=
  claim_C3_amended.2.2 1200 "b" ⟨1000, some "a"⟩ (by decide) (by decide)

/-- C7. Log deduplication: for a fixed selected entity the dedup loop
emits exactly those fetched lines not in the history, in arrival order;
in particular ingesting A, B and then A, B, C through update_logs emits
A, B on the first call and exactly C on the second. -/
theorem claim_C7 :
    (∀ (hist lines : List String), lines.Nodup →
      (dedupLines hist lines).1
        = lines.filter (fun l => !decide (l ∈ hist))) ∧
    (updateLogs 1000 ["A", "B"] ⟨0, [], some "m"⟩).2 = ["A", "B"] ∧
    (updateLogs 2000 ["A", "B", "C"]
        (updateLogs 1000 ["A", "B"] ⟨0, [], some "m"⟩).1).2 = ["C"] := by
  refine ⟨?_, by decide, by decide⟩
  intro hist lines
  induction lines generalizing hist with
  | nil => intro _; simp [dedupLines]
  | cons e rest ih =>
    intro hnd
    obtain ⟨hne, hr⟩ := List.nodup_cons.mp hnd
    by_cases he : e ∈ hist
    · simp [dedupLines, he, ih hist hr]
    · simp only [dedupLines, if_neg he, List.filter_cons]
      simp only [he, decide_False, Bool.not_false, if_pos]
      rw [ih (e :: hist) hr]
      refine congrArg (e :: ·) (List.filter_congr ?_)
      intro x hx
      have hxe : x ≠ e := fun hq => hne (hq ▸ hx)
      simp [hxe]

/-- Witness for C7: deduplicating A, B against a history holding A
emits exactly B. -/
theorem claim_C7_witness :
    (["A", "B"] : List String).Nodup ∧
    (dedupLines ["A"] ["A", "B"]).1
      = List.filter (fun l => !decide (l ∈ (["A"] : List String))) ["A", "B"] :=
  ⟨by decide, claim_C7.1 ["A"] ["A", "B"] (by decide)⟩

/-- C10. Log-update rate limiting: a call to update_logs less than
0.5 s after the previous completed update returns with the state
untouched, fetching nothing and emitting no line, whatever new lines
the source would have provided. -/
theorem claim_C10 (now : ℤ) (fetched : List String) (st : LogState)
    (h : now - st.lastUpdate < logRateLimit) :
    updateLogs now fetched st = (st, []) := by
  simp [updateLogs, h]

/-- Witness for C10: a call 250 ms after the last update, offering a
never-seen line, changes nothing and emits nothing. -/
theorem claim_C10_witness :
    updateLogs 1250 ["NEW"] ⟨1000, ["OLD"], some "m"⟩
      = (⟨1000, ["OLD"], some "m"⟩, []) ∧
    ("NEW" : String) ∉ (["OLD"] : List String) :=
  ⟨claim_C10 1250 ["NEW"] ⟨1000, ["OLD"], some "m"⟩ (by decide), by decide⟩


end LazyLLMs
